import Mathlib

/-!
Verification development for the stt-service push-to-talk speech-to-text
pipeline. The definitions below are a shallow embedding of the Python
sources under packages/stt-service/src/stt_service (protocol.py, server.py,
transcriber.py, ptt.py, client.py); theorems at the end of the file settle
the stated properties of the design document against this embedding.
-/

namespace STT

/-! ## Protocol (protocol.py)

JSON values are modeled as an inductive; an object is an association list
(json.loads produces a dict, so keys are unique and lookup is by key). -/

inductive Json where
  | str (s : String)
  | num (n : Int)
  | boolean (b : Bool)
  | null
  | obj (fields : List (String × Json))

/-- Field lookup in a JSON object (dict access `parsed.get(key)`). -/
def jsonGet : List (String × Json) → String → Option Json
  | [], _ => none
  | (k, v) :: rest, key => if k == key then some v else jsonGet rest key

/-- Client→server control messages (ConfigMessage, EndMessage,
KeepAliveMessage in protocol.py). -/
inductive ClientMessage where
  | config (sample_rate : Int) (language : String)
  | endMsg
  | keepalive
deriving DecidableEq, Repr

/-- Server→client messages (ReadyMessage, FinalMessage, ErrorMessage in
protocol.py). The confidence field only ever takes the exact values 0.0 and
1.0 in the server, so it is modeled as a rational. -/
inductive ServerMessage where
  | ready (session_id : String)
  | final (text : String) (confidence : Rat)
  | error (code : String) (message : String)
deriving DecidableEq, Repr

/-- `model_dump_json` of a client message: pydantic dumps the declared
fields in declaration order (`type` first). -/
def serialize_client_message : ClientMessage → Json
  | .config sr lang =>
      .obj [("type", .str "config"), ("sample_rate", .num sr), ("language", .str lang)]
  | .endMsg => .obj [("type", .str "end")]
  | .keepalive => .obj [("type", .str "keepalive")]

/-- Field validation performed by `ConfigMessage(**parsed)`: each field
takes its declared default when absent and must have the declared type when
present (extra fields are ignored, pydantic default behavior). -/
def parseConfigFields (fields : List (String × Json)) : Except String ClientMessage := do
  let sr ← match jsonGet fields "sample_rate" with
    | none => Except.ok (16000 : Int)
    | some (.num n) => Except.ok n
    | some _ => Except.error "validation error: sample_rate must be an integer"
  let lang ← match jsonGet fields "language" with
    | none => Except.ok "en"
    | some (.str s) => Except.ok s
    | some _ => Except.error "validation error: language must be a string"
  return ClientMessage.config sr lang

/-- `parse_client_message` (protocol.py): if/elif dispatch on the `type`
discriminator; any other `type` (including a missing or non-string one)
raises ValueError, and a non-object JSON raises when `.get` is called, so
both are parse failures. -/
def parse_client_message : Json → Except String ClientMessage
  | .obj fields =>
    match jsonGet fields "type" with
    | some (.str t) =>
      if t = "config" then parseConfigFields fields
      else if t = "end" then .ok .endMsg
      else if t = "keepalive" then .ok .keepalive
      else .error "Unknown message type"
    | _ => .error "Unknown message type"
  | _ => .error "message is not a JSON object"

/-- The `type` field of a JSON text, when it is an object with a string
`type` field. -/
def typeField : Json → Option String
  | .obj fields =>
    match jsonGet fields "type" with
    | some (.str s) => some s
    | _ => none
  | _ => none

/-! ## Server session (server.py)

Audio bytes are modeled as lists of naturals (one per byte); samples as
lists of integers (signed 16-bit values). -/

/-- Decode one little-endian signed 16-bit sample from two bytes. -/
def int16OfBytes (lo hi : Nat) : Int :=
  let u := lo % 256 + 256 * (hi % 256)
  if u < 32768 then (u : Int) else (u : Int) - 65536

/-- The ValueError message raised by np.frombuffer on an odd byte count. -/
def frombufferErrMsg : String := "buffer size must be a multiple of element size"

/-- `np.frombuffer(data, dtype=np.int16)`: raises ValueError when the byte
length is not a multiple of the 2-byte element size. -/
def bytesToInt16 : List Nat → Except String (List Int)
  | [] => .ok []
  | [_] => .error frombufferErrMsg
  | lo :: hi :: rest =>
    match bytesToInt16 rest with
    | .error e => .error e
    | .ok tail => .ok (int16OfBytes lo hi :: tail)

/-- STTSession.MAX_BUFFER_SAMPLES: 30 seconds at 16 kHz. -/
def MAX_BUFFER_SAMPLES : Nat := 16000 * 30

/-- Per-connection session state (class STTSession). The websocket handle
is owned by the connection handler and is not part of the data model. -/
structure STTSession where
  session_id : String
  audio_chunks : List (List Int)
  sample_rate : Int
  configured : Bool
  total_samples : Nat
deriving DecidableEq, Repr

/-- Session state as constructed at admission (STTSession.__init__). -/
def initSession (sid : String) : STTSession :=
  { session_id := sid, audio_chunks := [], sample_rate := 16000,
    configured := false, total_samples := 0 }

/-- STTSession.add_chunk: decode the frame, refuse it (returning False and
leaving the buffer untouched) when it would push the total past the cap,
append it otherwise. A decoding exception propagates. -/
def STTSession.add_chunk (s : STTSession) (data : List Nat) :
    Except String (Bool × STTSession) :=
  match bytesToInt16 data with
  | .error e => .error e
  | .ok audio =>
    if s.total_samples + audio.length > MAX_BUFFER_SAMPLES then
      .ok (false, s)
    else
      .ok (true, { s with audio_chunks := s.audio_chunks ++ [audio],
                          total_samples := s.total_samples + audio.length })

/-- STTSession.get_audio: None when no chunks, else the concatenation. -/
def STTSession.get_audio (s : STTSession) : Option (List Int) :=
  if s.audio_chunks.isEmpty then none else some s.audio_chunks.flatten

/-- STTSession.clear. -/
def STTSession.clear (s : STTSession) : STTSession :=
  { s with audio_chunks := [], total_samples := 0 }

/-- Total number of samples actually held in the buffer. -/
def STTSession.buffered_samples (s : STTSession) : Nat :=
  (s.audio_chunks.map List.length).sum

/-! ## Transcriber (transcriber.py)

The ONNX model (`self._model.recognize`) is an external collaborator; it
is passed in as an oracle that may fail. -/

/-- Transcriber.MAX_AUDIO_SECONDS. -/
def MAX_AUDIO_SECONDS : Nat := 30

/-- int16→float32 normalization (÷32767), modeled over rationals. -/
def normalize_int16 (audio : List Int) : List Rat :=
  audio.map (fun (x : Int) => (x : Rat) / 32767)

/-- The duration-validation guard of Transcriber.transcribe:
`len(audio) / sample_rate > MAX_AUDIO_SECONDS`. The Python float division
is exact at the magnitudes involved, so it is modeled over rationals; the
sample_rate = 0 case is handled separately by the caller. -/
def audioTooLong (len : Nat) (sample_rate : Int) : Bool :=
  decide ((len : Rat) / (sample_rate : Rat) > (MAX_AUDIO_SECONDS : Rat))

/-- The audio-too-long validation message, as it reaches the client. -/
def audioTooLongMsg : String := "Audio too long: exceeds max 30s"

/-- The message of a Python ZeroDivisionError. -/
def zeroDivMsg : String := "ZeroDivisionError: division by zero"

/-- Transcriber.transcribe: normalize, validate the duration, then call
the model (`recognize` oracle); the result text is stripped. Division by a
zero sample rate raises. -/
def transcribe (recognize : List Rat → Int → Except String String)
    (audio : List Int) (sample_rate : Int) : Except String String :=
  let floats := normalize_int16 audio
  if sample_rate = 0 then
    .error zeroDivMsg
  else if audioTooLong floats.length sample_rate then
    .error audioTooLongMsg
  else
    match recognize floats sample_rate with
    | .ok text => .ok text.trim
    | .error e => .error e

/-! ## Message handling (server.py STTServer) -/

/-- STTServer._process_audio. The returned Except.error models an
exception escaping _process_audio (only the division computing
audio_duration, which sits before the try block, can raise there); the
transcriber call itself is inside the try and maps to TRANSCRIPTION_ERROR. -/
def process_audio (recognize : List Rat → Int → Except String String)
    (s : STTSession) : Except String (ServerMessage × STTSession) :=
  let audio := s.get_audio
  let s' := s.clear
  match audio with
  | none => .ok (.final "" 0, s')
  | some a =>
    if a.length = 0 then .ok (.final "" 0, s')
    else if s.sample_rate = 0 then
      .error zeroDivMsg
    else
      match transcribe recognize a s.sample_rate with
      | .ok text => .ok (.final text 1, s')
      | .error e => .ok (.error "TRANSCRIPTION_ERROR" e, s')

/-- A WebSocket frame: binary audio bytes or a JSON text frame. -/
inductive WireMessage where
  | binary (data : List Nat)
  | text (j : Json)

/-- STTServer._handle_message: returns the messages sent and the updated
session; Except.error models an exception escaping the handler. -/
def handle_message (recognize : List Rat → Int → Except String String)
    (s : STTSession) (m : WireMessage) :
    Except String (List ServerMessage × STTSession) :=
  match m with
  | .binary data =>
    if ¬ s.configured then
      .ok ([.error "NOT_CONFIGURED" "Send config message before audio"], s)
    else
      match s.add_chunk data with
      | .error e => .error e
      | .ok (false, s') =>
        .ok ([.error "BUFFER_FULL" "Audio buffer full (max 30s)"], s')
      | .ok (true, s') => .ok ([], s')
  | .text j =>
    match parse_client_message j with
    | .error e => .ok ([.error "PARSE_ERROR" e], s)
    | .ok (.config sr _lang) =>
      .ok ([], { s with sample_rate := sr, configured := true })
    | .ok .endMsg => process_audio recognize s |>.map (fun p => ([p.1], p.2))
    | .ok .keepalive => .ok ([], s)

/-- The message loop of STTServer.handle_connection, from after `ready` was
sent: messages are handled in order; the first escaping exception makes the
handler send `error/INTERNAL` and exit the loop (the session then dies). -/
def run_messages (recognize : List Rat → Int → Except String String)
    (s : STTSession) : List WireMessage → List ServerMessage × Except String STTSession
  | [] => ([], .ok s)
  | m :: rest =>
    match handle_message recognize s m with
    | .error e => ([ServerMessage.error "INTERNAL" e], .error e)
    | .ok (msgs, s') =>
      let tail := run_messages recognize s' rest
      (msgs ++ tail.1, tail.2)

/-- `del self.sessions[session_id]` on handler exit. -/
def removeSession (tbl : List (String × STTSession)) (sid : String) :
    List (String × STTSession) :=
  tbl.filter (fun p => p.1 != sid)

/-- Update the table entry for a live session. -/
def updateSession (tbl : List (String × STTSession)) (sid : String)
    (s : STTSession) : List (String × STTSession) :=
  tbl.map (fun p => if p.1 == sid then (sid, s) else p)

/-- Outcome of handling one frame at the connection level. -/
structure ConnectionStep where
  sent : List ServerMessage
  sessions : List (String × STTSession)
  terminated : Bool
deriving DecidableEq, Repr

/-- One iteration of the handle_connection loop for session `sid` holding
state `s` inside table `tbl`: a per-message exception is caught by the
handler, which sends `error/INTERNAL`, removes the session from the table
and exits (terminating the session); otherwise the session continues. -/
def connection_step (recognize : List Rat → Int → Except String String)
    (tbl : List (String × STTSession)) (sid : String) (s : STTSession)
    (m : WireMessage) : ConnectionStep :=
  match handle_message recognize s m with
  | .ok (msgs, s') =>
    { sent := msgs, sessions := updateSession tbl sid s', terminated := false }
  | .error e =>
    { sent := [.error "INTERNAL" e], sessions := removeSession tbl sid,
      terminated := true }

/-! ## Connection admission (server.py STTServer.handle_connection) -/

/-- Process-wide admission state: `active` sessions hold semaphore permits
out of `max_connections` (ServerConfig defaults: 10, reject_when_full). -/
structure ServerState where
  active : Nat
  max_connections : Nat
  reject_when_full : Bool
deriving DecidableEq, Repr

/-- `self._connection_semaphore.locked()`: all permits are in use. -/
def semaphoreLocked (st : ServerState) : Bool :=
  st.max_connections ≤ st.active

/-- Outcome of the admission phase of handle_connection for one incoming
connection. `queued` is the branch where `async with` blocks on the
semaphore (only reachable with reject_when_full = False). -/
structure AdmissionResult where
  sent : List ServerMessage
  closed : Bool
  sessionCreated : Bool
  queued : Bool
  st : ServerState
deriving DecidableEq, Repr

/-- The admission discipline of handle_connection: reject with SERVER_FULL
and close when configured to and at capacity; otherwise acquire a permit,
create the session and send `ready`. -/
def handle_connection_admission (st : ServerState) (sid : String) :
    AdmissionResult :=
  if st.reject_when_full && semaphoreLocked st then
    { sent := [.error "SERVER_FULL" "Server at capacity. Try again later."],
      closed := true, sessionCreated := false, queued := false, st := st }
  else if st.active < st.max_connections then
    { sent := [.ready sid], closed := false, sessionCreated := true,
      queued := false, st := { st with active := st.active + 1 } }
  else
    { sent := [], closed := false, sessionCreated := false, queued := true,
      st := st }

/-! ## PTT controller (ptt.py PTTController) and its host (client.py)

The controller's event-driven behavior is modeled as a step function over
the controller state. Events are the entry points that touch `self.state`:
hotkey callbacks, the duration-monitor task waking, the processing-complete
notification, the stuck-state watchdog firing, and the host path in
client.py run_ptt_mode.start_recording that writes `ptt.state = IDLE` when
the server connection cannot be established. -/

/-- PTTState (ptt.py). -/
inductive PTTState where
  | IDLE
  | RECORDING
  | PROCESSING
deriving DecidableEq, Repr

/-- The state the PTT controller consults and mutates on every event. -/
structure PTTCtl where
  state : PTTState
  auto_submitted : Bool
deriving DecidableEq, Repr

/-- PTTController state at construction. -/
def pttInit : PTTCtl := { state := .IDLE, auto_submitted := false }

/-- Events that drive the controller. `durationTimerFires` is the
_monitor_duration task waking after max_duration_seconds without being
cancelled; `watchdogFires` is the _state_watchdog observing PROCESSING past
processing_timeout_seconds; `connectFailed` is client.py start_recording
failing to connect and writing `ptt.state = PTTState.IDLE`. -/
inductive PTTEvent where
  | hotkeyActivate
  | hotkeyDeactivate
  | durationTimerFires
  | processingComplete
  | watchdogFires
  | connectFailed
deriving DecidableEq, Repr

/-- Result of one event: the new controller state and which of the two
host callbacks fired during the event. -/
structure PTTStep where
  ctl : PTTCtl
  startFired : Bool
  stopFired : Bool
deriving DecidableEq, Repr

/-- An event that leaves the state alone and fires nothing. -/
def pttNoop (c : PTTCtl) : PTTStep :=
  { ctl := c, startFired := false, stopFired := false }

/-- PTTController._submit_recording: RECORDING→PROCESSING, cancel the
duration task, fire on_stop_recording. -/
def submit_recording (c : PTTCtl) : PTTStep :=
  { ctl := { c with state := .PROCESSING }, startFired := false,
    stopFired := true }

/-- The controller's reaction to one event, mirroring
_on_hotkey_activate, _on_hotkey_deactivate, _monitor_duration,
on_processing_complete, _state_watchdog (ptt.py) and the connect-failure
write in client.py start_recording. -/
def ptt_step (c : PTTCtl) (e : PTTEvent) : PTTStep :=
  match e with
  | .hotkeyActivate =>
    if c.state ≠ .IDLE then pttNoop c
    else
      { ctl := { state := .RECORDING, auto_submitted := false },
        startFired := true, stopFired := false }
  | .hotkeyDeactivate =>
    if c.state ≠ .RECORDING then pttNoop c
    else if c.auto_submitted then
      { ctl := { state := .IDLE, auto_submitted := false },
        startFired := false, stopFired := false }
    else submit_recording c
  | .durationTimerFires =>
    if c.state = .RECORDING then
      submit_recording { c with auto_submitted := true }
    else pttNoop c
  | .processingComplete =>
    if c.state = .PROCESSING then
      { ctl := { c with state := .IDLE }, startFired := false,
        stopFired := false }
    else pttNoop c
  | .watchdogFires =>
    if c.state = .PROCESSING then
      { ctl := { c with state := .IDLE }, startFired := false,
        stopFired := false }
    else pttNoop c
  | .connectFailed =>
    { ctl := { c with state := .IDLE }, startFired := false,
      stopFired := false }

/-! ## Evdev hotkey listener (ptt.py EvdevHotkeyListener) -/

/-- The listener state touched by device disconnection: the per-device
pressed-key map, the resolved hotkey codes, the activation flag, and the
set of monitored device paths (the keys of _device_tasks). -/
structure EvdevState where
  pressed_keys_by_device : List (String × List Nat)
  hotkey_codes : List Nat
  hotkey_active : Bool
  device_tasks : List String
deriving DecidableEq, Repr

/-- _get_all_pressed_keys: union of all per-device pressed-key sets. -/
def all_pressed (pressed : List (String × List Nat)) : List Nat :=
  (pressed.map Prod.snd).flatten

/-- `self._hotkey_codes.issubset(keys)`. -/
def hotkeySubset (codes : List Nat) (keys : List Nat) : Bool :=
  codes.all (fun c => keys.contains c)

/-- Callbacks observable by the listener's host, in invocation order. -/
inductive CallbackEvent where
  | onDeactivate
  | deviceCountChanged (n : Nat)
deriving DecidableEq, Repr

/-- EvdevHotkeyListener._on_device_disconnected: drop the device's
pressed-key contribution and its task entry, synthesize a single
on_deactivate when the hotkey was active and the remaining union no longer
satisfies it, then notify the device-count callback (when one is set) with
the new count. -/
def on_device_disconnected (st : EvdevState) (path : String)
    (hasCountCallback : Bool) : EvdevState × List CallbackEvent :=
  let pressed' := st.pressed_keys_by_device.filter (fun p => p.1 != path)
  let tasks' := st.device_tasks.filter (fun q => q != path)
  let stillHeld := hotkeySubset st.hotkey_codes (all_pressed pressed')
  let deactivated := st.hotkey_active && !stillHeld
  let st' : EvdevState :=
    { st with pressed_keys_by_device := pressed', device_tasks := tasks',
              hotkey_active := if deactivated then false else st.hotkey_active }
  let evs := (if deactivated then [CallbackEvent.onDeactivate] else []) ++
             (if hasCountCallback then [CallbackEvent.deviceCountChanged tasks'.length] else [])
  (st', evs)

/-! ## Client CLI dispatch (client.py main) -/

/-- The boolean flags consulted by main() before dispatching. -/
structure ClientArgs where
  ptt : Bool
  daemon : Bool
  tray : Bool
deriving DecidableEq, Repr

/-- Python truthiness of `os.environ.get(name)`: set and non-empty. -/
def envTruthy : Option String → Bool
  | none => false
  | some s => !(s == "")

/-- What main() does after parsing arguments: exit early with a status, or
proceed into one of the two run modes. -/
inductive MainDispatch where
  | exitCode (n : Nat)
  | runPttMode
  | runClientMode
deriving DecidableEq, Repr

/-- client.py main(): the daemon display requirement and the
tray-requires-ptt check (both nested under `if args.daemon:`), then
dispatch to run_ptt_mode or run_client. -/
def main_dispatch (args : ClientArgs) (display wayland : Option String) :
    MainDispatch :=
  if args.daemon then
    if !(envTruthy display) && !(envTruthy wayland) then .exitCode 0
    else if args.tray && !args.ptt then .exitCode 1
    else if args.ptt then .runPttMode else .runClientMode
  else
    if args.ptt then .runPttMode else .runClientMode

/-! ## Statement-level predicates and concrete fixtures -/

/-- The session-buffer invariant: the running counter agrees with the
buffer content and the buffered total respects the 480,000-sample cap. -/
def sessionInv (s : STTSession) : Prop :=
  s.total_samples = s.buffered_samples ∧
  s.buffered_samples ≤ MAX_BUFFER_SAMPLES

instance (s : STTSession) : Decidable (sessionInv s) := by
  unfold sessionInv; infer_instance

/-- Whether a server message is a `final` or an `error/TRANSCRIPTION_ERROR`. -/
def isFinalOrTranscriptionError : ServerMessage → Bool
  | .final _ _ => true
  | .error c _ => c == "TRANSCRIPTION_ERROR"
  | .ready _ => false

/-- The JSON of an `end` control message. -/
def endJson : Json := .obj [("type", .str "end")]

/-- A config message declaring sample_rate 0 (accepted by the pydantic
validation, which puts no bound on the integer). -/
def cfg0Json : Json :=
  .obj [("type", .str "config"), ("sample_rate", .num 0), ("language", .str "en")]

/-- A config message declaring sample_rate 1. -/
def cfgSr1Json : Json :=
  .obj [("type", .str "config"), ("sample_rate", .num 1), ("language", .str "en")]

/-- A config message declaring the default sample_rate 16000. -/
def cfg16kJson : Json :=
  .obj [("type", .str "config"), ("sample_rate", .num 16000), ("language", .str "en")]

/-- A concrete transcription oracle used by the witnesses. -/
def rec1 : List Rat → Int → Except String String := fun _ _ => .ok "hello"

/-- A freshly configured session at the default sample rate. -/
def demoConfigured : STTSession :=
  { session_id := "w2", audio_chunks := [], sample_rate := 16000,
    configured := true, total_samples := 0 }

/-- A configured session whose buffer is exactly full. -/
def demoFullSession : STTSession :=
  { session_id := "full",
    audio_chunks := [List.replicate MAX_BUFFER_SAMPLES 0],
    sample_rate := 16000, configured := true,
    total_samples := MAX_BUFFER_SAMPLES }

/-- A configured session holding a single one-sample chunk. -/
def demoOneSample : STTSession :=
  { session_id := "w3", audio_chunks := [[0]], sample_rate := 16000,
    configured := true, total_samples := 1 }

/-- The session reached from a fresh session by a config message declaring
sample_rate 1. -/
def sessionSr1Cfg : STTSession :=
  { session_id := "s1", audio_chunks := [], sample_rate := 1,
    configured := true, total_samples := 0 }

/-- The session reached from `sessionSr1Cfg` by one admitted 62-byte
(31-sample) binary frame. -/
def sessionSr1 : STTSession :=
  { session_id := "s1", audio_chunks := [List.replicate 31 0],
    sample_rate := 1, configured := true, total_samples := 31 }

/-! ## Theorems -/

/-- C8: every client→server control message round-trips through
serialization followed by parse_client_message to structural equality, and
every JSON object whose `type` field is none of config, end, keepalive
fails to parse. -/
theorem C8_roundtrip_and_unknown_type :
    (∀ m : ClientMessage,
      parse_client_message (serialize_client_message m) = .ok m) ∧
    (∀ j : Json,
      (∀ s, typeField j = some s →
        s ∉ (["config", "end", "keepalive"] : List String)) →
      ∃ e, parse_client_message j = .error e) := by
  constructor
  · intro m
    cases m <;> rfl
  · intro j h
    match j with
    | .str _ | .num _ | .boolean _ | .null => exact ⟨_, rfl⟩
    | .obj fields =>
      simp only [parse_client_message]
      cases hg : jsonGet fields "type" with
      | none => exact ⟨_, rfl⟩
      | some v =>
        cases v with
        | str s =>
          have hs := h s (by simp [typeField, hg])
          simp only [List.mem_cons, List.not_mem_nil] at hs
          push_neg at hs
          obtain ⟨h1, h2, h3, -⟩ := hs
          simp only [if_neg h1, if_neg h2, if_neg h3]
          exact ⟨_, rfl⟩
        | num _ => exact ⟨_, rfl⟩
        | boolean _ => exact ⟨_, rfl⟩
        | null => exact ⟨_, rfl⟩
        | obj _ => exact ⟨_, rfl⟩

theorem C8_witness :
    parse_client_message
        (serialize_client_message (.config 16000 "en")) =
      .ok (.config 16000 "en") ∧
    ∃ e, parse_client_message (.obj [("type", .str "bogus")]) = .error e := by
  refine ⟨C8_roundtrip_and_unknown_type.1 _, ?_⟩
  apply C8_roundtrip_and_unknown_type.2
  intro s hs
  simp [typeField, jsonGet] at hs
  subst hs
  decide

/-- Specification of _process_audio when the configured sample rate is
nonzero: it returns exactly one message, a `final` or an
`error/TRANSCRIPTION_ERROR`, the session buffer is cleared, and an empty
buffer yields `final` with empty text and confidence 0. -/
theorem process_audio_spec
    (recognize : List Rat → Int → Except String String) (s : STTSession)
    (hsr : s.sample_rate ≠ 0) :
    ∃ m s', process_audio recognize s = .ok (m, s') ∧
      isFinalOrTranscriptionError m = true ∧
      s'.audio_chunks = [] ∧ s'.total_samples = 0 ∧
      (s.buffered_samples = 0 → m = .final "" 0) := by
  unfold process_audio
  cases hc : s.audio_chunks with
  | nil =>
    refine ⟨.final "" 0, s.clear, ?_⟩
    simp [STTSession.get_audio, hc, STTSession.clear,
      isFinalOrTranscriptionError]
  | cons a rest =>
    have hne : s.audio_chunks.isEmpty = false := by rw [hc]; rfl
    simp only [STTSession.get_audio, hne, Bool.false_eq_true, if_false]
    by_cases hlen : s.audio_chunks.flatten.length = 0
    · refine ⟨.final "" 0, s.clear, ?_⟩
      simp [hlen, STTSession.clear, isFinalOrTranscriptionError]
    · rw [if_neg hlen, if_neg hsr]
      cases ht : transcribe recognize s.audio_chunks.flatten s.sample_rate with
      | ok text =>
        refine ⟨.final text 1, s.clear, by simp [STTSession.clear], rfl,
          rfl, rfl, ?_⟩
        intro h0
        exfalso
        apply hlen
        rw [List.length_flatten]
        exact h0 ▸ rfl
      | error e =>
        refine ⟨.error "TRANSCRIPTION_ERROR" e, s.clear,
          by simp [STTSession.clear], by rfl, rfl, rfl, ?_⟩
        intro h0
        exfalso
        apply hlen
        rw [List.length_flatten]
        exact h0 ▸ rfl

/-- C1: for a session whose configured sample_rate is nonzero, every `end`
message is answered by exactly one response, a `final` or an
`error/TRANSCRIPTION_ERROR`, and the session's audio buffer is empty
afterwards; an empty buffer yields `final` with text "" and confidence 0.
(The sample_rate hypothesis is the amendment: with sample_rate = 0 and a
nonempty buffer the duration computation raises and the reply is
`error/INTERNAL` instead, see the counterexample.) -/
theorem C1_end_response
    (recognize : List Rat → Int → Except String String) (s : STTSession)
    (j : Json) (hsr : s.sample_rate ≠ 0)
    (hj : parse_client_message j = .ok .endMsg) :
    ∃ m s', handle_message recognize s (.text j) = .ok ([m], s') ∧
      isFinalOrTranscriptionError m = true ∧
      s'.audio_chunks = [] ∧ s'.total_samples = 0 ∧
      (s.buffered_samples = 0 → m = .final "" 0) := by
  obtain ⟨m, s', hpa, hkind, hch, hts, hempty⟩ :=
    process_audio_spec recognize s hsr
  refine ⟨m, s', ?_, hkind, hch, hts, hempty⟩
  simp only [handle_message, hj, hpa, Except.map]

theorem C1_witness :
    ∃ m s', handle_message rec1 (initSession "w1") (.text endJson) =
        .ok ([m], s') ∧
      isFinalOrTranscriptionError m = true ∧
      s'.audio_chunks = [] ∧ s'.total_samples = 0 ∧
      ((initSession "w1").buffered_samples = 0 → m = .final "" 0) :=
  C1_end_response rec1 (initSession "w1") endJson (by decide) (by rfl)

/-- C1 counterexample: the claim quantifies over every session and every
handled `end`; a client may configure sample_rate 0, send one audio frame
and then `end` — the duration division then raises ZeroDivisionError
before the try block, so the single response is `error/INTERNAL`, not a
`final` or an `error/TRANSCRIPTION_ERROR`. -/
theorem C1_counterexample :
    (run_messages rec1 (initSession "s0")
        [.text cfg0Json, .binary [0, 0], .text endJson]).1 =
      [ServerMessage.error "INTERNAL" zeroDivMsg] ∧
    isFinalOrTranscriptionError (ServerMessage.error "INTERNAL" zeroDivMsg)
      = false := by
  constructor <;> rfl

/-- One handled message preserves the session-buffer invariant. -/
theorem handle_message_preserves_inv
    (recognize : List Rat → Int → Except String String) (s : STTSession)
    (m : WireMessage) (msgs : List ServerMessage) (s' : STTSession)
    (hinv : sessionInv s)
    (h : handle_message recognize s m = .ok (msgs, s')) : sessionInv s' := by
  obtain ⟨hts, hcap⟩ := hinv
  cases m with
  | binary data =>
    simp only [handle_message] at h
    by_cases hc : s.configured
    · simp only [hc, not_true, if_neg, if_false] at h
      unfold STTSession.add_chunk at h
      cases hb : bytesToInt16 data with
      | error e => rw [hb] at h; exact absurd h (by simp)
      | ok audio =>
        rw [hb] at h
        by_cases hfull : s.total_samples + audio.length > MAX_BUFFER_SAMPLES
        · simp only [if_pos hfull] at h
          obtain ⟨-, rfl⟩ := Prod.mk.injEq .. ▸ (Except.ok.inj h)
          exact ⟨hts, hcap⟩
        · simp only [if_neg hfull] at h
          have h2 : s' = { s with
              audio_chunks := s.audio_chunks ++ [audio],
              total_samples := s.total_samples + audio.length } := by
            cases h; rfl
          subst h2
          constructor
          · simp [STTSession.buffered_samples, hts]
          · simp only [STTSession.buffered_samples, List.map_append,
              List.sum_append, List.map_cons, List.map_nil, List.sum_cons,
              List.sum_nil, add_zero]
            rw [← STTSession.buffered_samples, ← hts]
            omega
    · simp only [hc, not_false_iff, if_pos] at h
      cases h; exact ⟨hts, hcap⟩
  | text j =>
    simp only [handle_message] at h
    cases hp : parse_client_message j with
    | error e => rw [hp] at h; cases h; exact ⟨hts, hcap⟩
    | ok msg =>
      rw [hp] at h
      cases msg with
      | config sr lang =>
        cases h
        exact ⟨hts, hcap⟩
      | keepalive => cases h; exact ⟨hts, hcap⟩
      | endMsg =>
        cases hpa : process_audio recognize s with
        | error e => rw [hpa] at h; exact absurd h (by simp [Except.map])
        | ok p =>
          rw [hpa] at h
          obtain ⟨mm, s2⟩ := p
          simp only [Except.map, Except.ok.injEq, Prod.mk.injEq] at h
          obtain ⟨-, rfl⟩ := h
          -- process_audio always returns the cleared session
          unfold process_audio at hpa
          have hclear : s2 = s.clear := by
            rcases hga : s.audio_chunks.isEmpty with hemp | hnemp
            · simp only [STTSession.get_audio, hga, Bool.false_eq_true,
                if_false] at hpa
              split at hpa
              · cases hpa; rfl
              · split at hpa
                · exact absurd hpa (by simp)
                · split at hpa <;> cases hpa <;> rfl
            · simp only [STTSession.get_audio, hga, if_true] at hpa
              cases hpa; rfl
          subst hclear
          exact ⟨rfl, by simp [STTSession.clear, STTSession.buffered_samples]⟩

/-- C2: the buffered sample total starts at 0, never exceeds
MAX_BUFFER_SAMPLES = 480000 across any handled message, and a binary frame
that would push the total past the cap is answered with
`error/BUFFER_FULL` while the session state is left unchanged and the
handler returns normally (the session stays open). -/
theorem C2_buffer_cap :
    (∀ sid, sessionInv (initSession sid)) ∧
    (∀ (recognize : List Rat → Int → Except String String) s m msgs s',
      sessionInv s → handle_message recognize s m = .ok (msgs, s') →
      sessionInv s') ∧
    (∀ (recognize : List Rat → Int → Except String String) s data audio,
      s.configured = true → bytesToInt16 data = .ok audio →
      s.total_samples + audio.length > MAX_BUFFER_SAMPLES →
      handle_message recognize s (.binary data) =
        .ok ([.error "BUFFER_FULL" "Audio buffer full (max 30s)"], s)) := by
  refine ⟨fun sid => ⟨rfl, by simp [initSession, STTSession.buffered_samples]⟩,
    handle_message_preserves_inv, ?_⟩
  intro recognize s data audio hc hb hfull
  simp only [handle_message, hc, not_true, if_neg, if_false,
    STTSession.add_chunk, hb, if_pos hfull]

theorem C2_witness :
    sessionInv (initSession "w2") ∧
    sessionInv demoConfigured ∧
    handle_message rec1 demoFullSession (.binary [0, 0]) =
      .ok ([.error "BUFFER_FULL" "Audio buffer full (max 30s)"],
        demoFullSession) := by
  refine ⟨C2_buffer_cap.1 "w2",
    C2_buffer_cap.2.1 rec1 (initSession "w2") (.text cfg16kJson) []
      demoConfigured (C2_buffer_cap.1 "w2") (by rfl),
    C2_buffer_cap.2.2 rec1 demoFullSession [0, 0] [0] rfl rfl ?_⟩
  show MAX_BUFFER_SAMPLES + 1 > MAX_BUFFER_SAMPLES
  omega

/-- C3 counterexample: the buffer cap is 480,000 samples, not 30 seconds
at the declared rate. A session configured with sample_rate 1 admits a
62-byte frame (31 samples, all within the cap), yet on `end` the
transcriber receives 31 seconds of audio and its duration validation
fires: the reply is `error/TRANSCRIPTION_ERROR` with the audio-too-long
message. -/
theorem C3_counterexample :
    (run_messages rec1 (initSession "s1")
        [.text cfgSr1Json, .binary (List.replicate 62 0), .text endJson]).1 =
      [ServerMessage.error "TRANSCRIPTION_ERROR" audioTooLongMsg] := by
  have hguard : audioTooLong 31 1 = true := by
    unfold audioTooLong MAX_AUDIO_SECONDS
    norm_num
  have hlen : (normalize_int16 (List.replicate 31 (0 : Int))).length = 31 := by
    unfold normalize_int16
    rw [List.length_map, List.length_replicate]
  have htr : transcribe rec1 (List.replicate 31 (0 : Int)) 1 =
      .error audioTooLongMsg := by
    simp only [transcribe, hlen, hguard]
    norm_num
  have h1 : handle_message rec1 (initSession "s1") (.text cfgSr1Json) =
      .ok ([], sessionSr1Cfg) := rfl
  have h2 : handle_message rec1 sessionSr1Cfg
      (.binary (List.replicate 62 0)) = .ok ([], sessionSr1) := rfl
  have hga : sessionSr1.get_audio = some (List.replicate 31 (0 : Int)) := rfl
  have hpa : process_audio rec1 sessionSr1 =
      .ok (.error "TRANSCRIPTION_ERROR" audioTooLongMsg, sessionSr1.clear) := by
    simp only [process_audio, hga]
    rw [show sessionSr1.sample_rate = 1 from rfl]
    rw [if_neg (by simp : ¬ (List.replicate 31 (0 : Int)).length = 0)]
    rw [if_neg (by decide : ¬ (1 : Int) = 0)]
    rw [htr]
  have h3 : handle_message rec1 sessionSr1 (.text endJson) =
      .ok ([.error "TRANSCRIPTION_ERROR" audioTooLongMsg],
        sessionSr1.clear) := by
    simp only [handle_message,
      show parse_client_message endJson = .ok .endMsg from rfl, hpa,
      Except.map]
  simp only [run_messages, h1, h2, h3]
  rfl

/-- C3 amended: for every session satisfying the buffer invariant whose
declared sample_rate is at least 16000 Hz, the audio submitted on `end`
has duration at most 30 s, so the transcriber's duration validation never
fires; any error out of the transcribe call then comes from the model
itself. -/
theorem C3_duration_bound
    (recognize : List Rat → Int → Except String String) (s : STTSession)
    (a : List Int) (hinv : sessionInv s)
    (hsr : (16000 : Int) ≤ s.sample_rate) (hga : s.get_audio = some a) :
    audioTooLong (normalize_int16 a).length s.sample_rate = false ∧
    (∀ e, transcribe recognize a s.sample_rate = .error e →
      recognize (normalize_int16 a) s.sample_rate = .error e) := by
  obtain ⟨hts, hcap⟩ := hinv
  have ha : a = s.audio_chunks.flatten := by
    unfold STTSession.get_audio at hga
    split at hga
    · exact absurd hga (by simp)
    · exact (Option.some.inj hga).symm
  have hlen : a.length ≤ MAX_BUFFER_SAMPLES := by
    rw [ha, List.length_flatten]
    exact hcap
  have hnlen : (normalize_int16 a).length = a.length := by
    unfold normalize_int16
    exact List.length_map _ _
  have hsrpos : (0 : Rat) < (s.sample_rate : Rat) := by
    have : (0 : Int) < s.sample_rate := by omega
    exact_mod_cast this
  have hguard : audioTooLong (normalize_int16 a).length s.sample_rate
      = false := by
    unfold audioTooLong
    rw [decide_eq_false_iff_not, not_lt, div_le_iff₀ hsrpos, hnlen]
    calc (a.length : Rat) ≤ (MAX_BUFFER_SAMPLES : Rat) := by
          exact_mod_cast hlen
      _ = (MAX_AUDIO_SECONDS : Rat) * 16000 := by
          norm_num [MAX_BUFFER_SAMPLES, MAX_AUDIO_SECONDS]
      _ ≤ (MAX_AUDIO_SECONDS : Rat) * (s.sample_rate : Rat) := by
          have h16 : (16000 : Rat) ≤ (s.sample_rate : Rat) := by
            exact_mod_cast hsr
          have hpos : (0 : Rat) ≤ (MAX_AUDIO_SECONDS : Rat) := by norm_num
          exact mul_le_mul_of_nonneg_left h16 hpos
  refine ⟨hguard, ?_⟩
  intro e he
  unfold transcribe at he
  rw [if_neg (by omega : ¬ s.sample_rate = 0)] at he
  rw [hguard] at he
  simp only [Bool.false_eq_true, if_false] at he
  cases hr : recognize (normalize_int16 a) s.sample_rate with
  | ok text => rw [hr] at he; exact absurd he (by simp)
  | error e2 => rw [hr] at he; exact he ▸ rfl

theorem C3_witness :
    audioTooLong (normalize_int16 [0]).length demoOneSample.sample_rate
      = false ∧
    (∀ e, transcribe rec1 [0] demoOneSample.sample_rate = .error e →
      rec1 (normalize_int16 [0]) demoOneSample.sample_rate = .error e) :=
  C3_duration_bound rec1 demoOneSample [0] (by decide) (by decide) (by rfl)

/-- C4 counterexample: a reachable RECORDING→IDLE transition exists. From
IDLE the hotkey press moves the controller to RECORDING and schedules
start_recording; when the connection cannot be established, client.py
start_recording writes `ptt.state = PTTState.IDLE`, moving
RECORDING→IDLE without passing through PROCESSING. -/
theorem C4_counterexample :
    (ptt_step pttInit .hotkeyActivate).ctl.state = .RECORDING ∧
    (ptt_step (ptt_step pttInit .hotkeyActivate).ctl .connectFailed).ctl.state
      = .IDLE := by
  decide

/-- C4 amended: every event either leaves the state unchanged or moves it
along one of IDLE→RECORDING, RECORDING→PROCESSING, PROCESSING→IDLE, or
RECORDING→IDLE — the last occurring when start_recording fails to connect
(client.py) or when a release is consumed after an auto-submit (ptt.py
_on_hotkey_deactivate). -/
theorem C4_transitions (c : PTTCtl) (e : PTTEvent) :
    (ptt_step c e).ctl.state = c.state ∨
    (c.state = .IDLE ∧ (ptt_step c e).ctl.state = .RECORDING) ∨
    (c.state = .RECORDING ∧ (ptt_step c e).ctl.state = .PROCESSING) ∨
    (c.state = .PROCESSING ∧ (ptt_step c e).ctl.state = .IDLE) ∨
    (c.state = .RECORDING ∧ (ptt_step c e).ctl.state = .IDLE) := by
  rcases c with ⟨st, auto⟩
  cases st <;> cases auto <;> cases e <;> decide

/-- C5: when reject_when_full is set and every admission permit is in use,
an arriving connection is sent exactly one message, `error/SERVER_FULL`,
and closed — no `ready`, no session, no state change; and admission never
pushes the number of active sessions past max_connections. -/
theorem C5_admission :
    (∀ (st : ServerState) (sid : String), st.reject_when_full = true →
      semaphoreLocked st = true →
      handle_connection_admission st sid =
        { sent := [.error "SERVER_FULL" "Server at capacity. Try again later."],
          closed := true, sessionCreated := false, queued := false,
          st := st }) ∧
    (∀ (st : ServerState) (sid : String),
      st.active ≤ st.max_connections →
      (handle_connection_admission st sid).st.active ≤ st.max_connections) := by
  constructor
  · intro st sid hr hl
    unfold handle_connection_admission
    rw [hr, hl]
    rfl
  · intro st sid hle
    unfold handle_connection_admission
    split
    · exact hle
    · split
      · next h => exact h
      · exact hle

theorem C5_witness :
    handle_connection_admission ⟨2, 2, true⟩ "x" =
      { sent := [.error "SERVER_FULL" "Server at capacity. Try again later."],
        closed := true, sessionCreated := false, queued := false,
        st := ⟨2, 2, true⟩ } ∧
    (handle_connection_admission ⟨0, 10, true⟩ "y").st.active ≤ 10 :=
  ⟨C5_admission.1 ⟨2, 2, true⟩ "x" rfl (by decide),
   C5_admission.2 ⟨0, 10, true⟩ "y" (by decide)⟩

/-- C6: when the duration monitor wakes in RECORDING it sets
auto_submitted, performs the same RECORDING→PROCESSING transition as a
release and fires on_stop_recording; the subsequent genuine release is
consumed without firing on_stop_recording again and without changing the
controller state. -/
theorem C6_auto_submit (c : PTTCtl) (h : c.state = .RECORDING) :
    (ptt_step c .durationTimerFires).ctl.state = .PROCESSING ∧
    (ptt_step c .durationTimerFires).ctl.auto_submitted = true ∧
    (ptt_step c .durationTimerFires).stopFired = true ∧
    (ptt_step (ptt_step c .durationTimerFires).ctl .hotkeyDeactivate).stopFired
      = false ∧
    (ptt_step (ptt_step c .durationTimerFires).ctl .hotkeyDeactivate).ctl =
      (ptt_step c .durationTimerFires).ctl := by
  rcases c with ⟨st, auto⟩
  simp only at h
  subst h
  cases auto <;> decide

theorem C6_witness :
    (ptt_step ⟨.RECORDING, false⟩ .durationTimerFires).ctl.state
      = .PROCESSING ∧
    (ptt_step ⟨.RECORDING, false⟩ .durationTimerFires).ctl.auto_submitted
      = true ∧
    (ptt_step ⟨.RECORDING, false⟩ .durationTimerFires).stopFired = true ∧
    (ptt_step (ptt_step ⟨.RECORDING, false⟩ .durationTimerFires).ctl
        .hotkeyDeactivate).stopFired = false ∧
    (ptt_step (ptt_step ⟨.RECORDING, false⟩ .durationTimerFires).ctl
        .hotkeyDeactivate).ctl =
      (ptt_step ⟨.RECORDING, false⟩ .durationTimerFires).ctl :=
  C6_auto_submit ⟨.RECORDING, false⟩ rfl

/-- C7: after a device disconnect, the disconnected device no longer
appears in the pressed-keys map, so every key code still in the union is
contributed by a remaining device; and when the hotkey was active, the
remaining union no longer satisfies it, and a device-count callback is
set, the emitted callbacks are exactly one on_deactivate followed by the
device-count callback carrying the new device count. -/
theorem C7_device_disconnect (st : EvdevState) (path : String) (cb : Bool) :
    (∀ q ∈ (on_device_disconnected st path cb).1.pressed_keys_by_device,
      q.1 ≠ path) ∧
    (∀ k ∈ all_pressed (on_device_disconnected st path cb).1.pressed_keys_by_device,
      ∃ q ∈ st.pressed_keys_by_device, q.1 ≠ path ∧ k ∈ q.2) ∧
    (st.hotkey_active = true →
      hotkeySubset st.hotkey_codes
        (all_pressed (st.pressed_keys_by_device.filter
          (fun p => p.1 != path))) = false →
      cb = true →
      (on_device_disconnected st path cb).2 =
        [CallbackEvent.onDeactivate,
         CallbackEvent.deviceCountChanged
           (on_device_disconnected st path cb).1.device_tasks.length]) ∧
    (cb = true →
      (on_device_disconnected st path cb).2.getLast? =
        some (CallbackEvent.deviceCountChanged
          (on_device_disconnected st path cb).1.device_tasks.length)) := by
  refine ⟨?_, ?_, ?_, ?_⟩
  · intro q hq
    simp only [on_device_disconnected] at hq
    rw [List.mem_filter] at hq
    exact fun h => absurd (h ▸ hq.2) (by simp)
  · intro k hk
    simp only [on_device_disconnected, all_pressed] at hk
    rw [List.mem_flatten] at hk
    obtain ⟨l, hl, hkl⟩ := hk
    rw [List.mem_map] at hl
    obtain ⟨q, hq, rfl⟩ := hl
    rw [List.mem_filter] at hq
    refine ⟨q, hq.1, ?_, hkl⟩
    intro h
    exact absurd (h ▸ hq.2) (by simp)
  · intro hact hsub hcb
    simp only [on_device_disconnected, hact, hsub, hcb]
    rfl
  · intro hcb
    subst hcb
    simp only [on_device_disconnected]
    cases st.hotkey_active && !hotkeySubset st.hotkey_codes
        (all_pressed (st.pressed_keys_by_device.filter
          (fun p => p.1 != path))) <;> rfl

theorem C7_witness :
    (∀ q ∈ (on_device_disconnected
        ⟨[("kb0", [29, 125])], [29, 125], true, ["kb0"]⟩ "kb0"
        true).1.pressed_keys_by_device, q.1 ≠ "kb0") ∧
    (∀ k ∈ all_pressed (on_device_disconnected
        ⟨[("kb0", [29, 125])], [29, 125], true, ["kb0"]⟩ "kb0"
        true).1.pressed_keys_by_device,
      ∃ q ∈ ([("kb0", [29, 125])] : List (String × List Nat)),
        q.1 ≠ "kb0" ∧ k ∈ q.2) ∧
    ((on_device_disconnected
        ⟨[("kb0", [29, 125])], [29, 125], true, ["kb0"]⟩ "kb0" true).2 =
      [CallbackEvent.onDeactivate,
       CallbackEvent.deviceCountChanged (on_device_disconnected
        ⟨[("kb0", [29, 125])], [29, 125], true, ["kb0"]⟩ "kb0"
        true).1.device_tasks.length]) ∧
    ((on_device_disconnected
        ⟨[("kb0", [29, 125])], [29, 125], true, ["kb0"]⟩ "kb0"
        true).2.getLast? =
      some (CallbackEvent.deviceCountChanged (on_device_disconnected
        ⟨[("kb0", [29, 125])], [29, 125], true, ["kb0"]⟩ "kb0"
        true).1.device_tasks.length)) := by
  obtain ⟨h1, h2, h3, h4⟩ := C7_device_disconnect
    ⟨[("kb0", [29, 125])], [29, 125], true, ["kb0"]⟩ "kb0" true
  exact ⟨h1, h2, h3 rfl (by decide) rfl, h4 rfl⟩

/-- C9 counterexample: the tray-requires-ptt check sits inside
`if args.daemon:` in client.py main, so an invocation with `--tray` but
without `--ptt` and without `--daemon` proceeds into the one-shot client
instead of exiting with status 1, even with a display present. -/
theorem C9_counterexample :
    main_dispatch { ptt := false, daemon := false, tray := true }
        (some ":0") none = .runClientMode ∧
    main_dispatch { ptt := false, daemon := false, tray := true }
        (some ":0") none ≠ .exitCode 1 := by
  decide

/-- C9 amended: in daemon mode with a display present, `--tray` without
`--ptt` exits with status 1; and in daemon mode with neither DISPLAY nor
WAYLAND_DISPLAY set (to a non-empty value), the client exits with status
0. Outside daemon mode the tray check is not performed. -/
theorem C9_cli_checks :
    (∀ (args : ClientArgs) (d w : Option String), args.daemon = true →
      args.tray = true → args.ptt = false →
      (envTruthy d || envTruthy w) = true →
      main_dispatch args d w = .exitCode 1) ∧
    (∀ (args : ClientArgs) (d w : Option String), args.daemon = true →
      envTruthy d = false → envTruthy w = false →
      main_dispatch args d w = .exitCode 0) := by
  constructor
  · intro args d w hd ht hp hdisp
    unfold main_dispatch
    rw [hd, ht, hp]
    rcases Bool.or_eq_true_iff.mp hdisp with h | h <;>
      simp [h]
  · intro args d w hd hdn hwn
    unfold main_dispatch
    rw [hd, hdn, hwn]
    rfl

theorem C9_witness :
    main_dispatch { ptt := false, daemon := true, tray := true }
        (some ":0") none = .exitCode 1 ∧
    main_dispatch { ptt := true, daemon := true, tray := true } none none
      = .exitCode 0 :=
  ⟨C9_cli_checks.1 { ptt := false, daemon := true, tray := true }
      (some ":0") none rfl rfl rfl (by decide),
   C9_cli_checks.2 { ptt := true, daemon := true, tray := true } none none
      rfl rfl rfl⟩

/-- A byte buffer of odd length makes the int16 conversion raise
np.frombuffer's ValueError. -/
theorem bytesToInt16_odd :
    ∀ (data : List Nat), data.length % 2 = 1 →
      bytesToInt16 data = .error frombufferErrMsg
  | [], h => by simp at h
  | [_], _ => rfl
  | x :: y :: rest, h => by
    have hr : rest.length % 2 = 1 := by
      simp only [List.length_cons] at h
      omega
    simp only [bytesToInt16, bytesToInt16_odd rest hr]

/-- C10: for a configured session, a binary frame of odd byte length makes
the int16 conversion raise; the exception escapes _handle_message, so the
connection handler sends `error/INTERNAL`, removes the session from the
table and terminates it — unlike the advisory BUFFER_FULL or PARSE_ERROR
paths. -/
theorem C10_odd_frame
    (recognize : List Rat → Int → Except String String)
    (tbl : List (String × STTSession)) (sid : String) (s : STTSession)
    (data : List Nat) (hc : s.configured = true)
    (hodd : data.length % 2 = 1) :
    connection_step recognize tbl sid s (.binary data) =
      { sent := [.error "INTERNAL" frombufferErrMsg],
        sessions := removeSession tbl sid, terminated := true } := by
  simp [connection_step, handle_message, hc, STTSession.add_chunk,
    bytesToInt16_odd data hodd]

theorem C10_witness :
    connection_step rec1 [("w2", demoConfigured)] "w2" demoConfigured
        (.binary [0]) =
      { sent := [.error "INTERNAL" frombufferErrMsg],
        sessions := removeSession [("w2", demoConfigured)] "w2",
        terminated := true } :=
  C10_odd_frame rec1 [("w2", demoConfigured)] "w2" demoConfigured [0]
    rfl (by decide)

end STT
